import Mathlib

/-!
Verification of the fszn contract-management core: a shallow embedding of
`src/fszn/contracts.py` and `src/fszn/services/*.py` (status derivation,
finance aggregation, audit logging, file-access policy, record deletion
routes), with theorems settling the specification's claims about them.

Database rows become Lean structures; the SQLAlchemy queries used by the
code (`filter_by(...).count()`, `filter_by(...).first()`, `first_or_404`)
become list operations over an explicit `DB` state.  Decimal amounts are
embedded as exact rationals (`ℚ`); nullable columns as `Option`.
-/

namespace Fszn

/-- A row of the `user` table: only the columns the examined code reads
(`id`, nullable `role`). -/
structure User where
  id : Nat
  role : Option String
deriving Repr, DecidableEq

/-- A row of the `contract` table (columns read by the embedded handlers). -/
structure Contract where
  id : Nat
  project_code : String
  contract_number : Option String
deriving Repr, DecidableEq

/-- A row of the `task` table. -/
structure Task where
  id : Nat
  contract_id : Nat
  title : String
  status : String
deriving Repr, DecidableEq

/-- A row of the `procurement_item` table. -/
structure ProcurementItem where
  id : Nat
  contract_id : Nat
  item_name : String
deriving Repr, DecidableEq

/-- A row of the `acceptance` table; `status` is an open string vocabulary. -/
structure Acceptance where
  id : Nat
  contract_id : Nat
  status : String
deriving Repr, DecidableEq

/-- A row of the `payment` table; `amount` is a nullable exact decimal. -/
structure Payment where
  id : Nat
  contract_id : Nat
  amount : Option ℚ
  pay_date : Option String
deriving Repr, DecidableEq

/-- A row of the `invoice` table. -/
structure Invoice where
  id : Nat
  contract_id : Nat
  amount : Option ℚ
deriving Repr, DecidableEq

/-- A row of the `refund` table. -/
structure Refund where
  id : Nat
  contract_id : Nat
  amount : Option ℚ
deriving Repr, DecidableEq

/-- A row of the `feedback` table. -/
structure Feedback where
  id : Nat
  contract_id : Nat
  is_resolved : Bool
deriving Repr, DecidableEq

/-- A row of the `sales_info` table; at most one per contract is assumed by
the code's `.first()` access. -/
structure SalesInfo where
  id : Nat
  contract_id : Nat
  quote_amount : Option ℚ
deriving Repr, DecidableEq

/-- A row of the `project_department_leader` table. -/
structure Leader where
  id : Nat
  contract_id : Nat
deriving Repr, DecidableEq

/-- A row of the `project_file` table (columns the access policy reads). -/
structure ProjectFile where
  id : Nat
  contract_id : Nat
  original_filename : String
  stored_filename : String
  file_type : String
  version : Nat
  is_public : Bool
  owner_role : Option String
  uploader_id : Option Nat
deriving Repr, DecidableEq

/-- One serialized value of an audit `extra` dict.  `unserializable` embeds a
Python object `json.dumps` rejects (the source's `except Exception` branch). -/
inductive JsonVal where
  | str : String → JsonVal
  | nat : Nat → JsonVal
  | bool : Bool → JsonVal
  | null : JsonVal
  | unserializable : JsonVal
deriving Repr, DecidableEq

/-- A row of the `operation_log` table, as built by `log_operation`. -/
structure OperationLog where
  user_id : Option Nat
  action : String
  target_type : Option String
  target_id : Option Nat
  message : Option String
  extra_data : Option String
deriving Repr, DecidableEq

/-- The persistent store: one list per table the embedded code touches. -/
structure DB where
  users : List User
  contracts : List Contract
  tasks : List Task
  procurements : List ProcurementItem
  acceptances : List Acceptance
  payments : List Payment
  invoices : List Invoice
  refunds : List Refund
  feedbacks : List Feedback
  salesinfos : List SalesInfo
  leaders : List Leader
  logs : List OperationLog
deriving Repr, DecidableEq

/-! ### Audit logger (`log_operation`, contracts.py lines 24-49) -/

/-- Serialization of one `JsonVal`, `none` when `json.dumps` would raise. -/
def dumpVal : JsonVal → Option String
  | JsonVal.str s => some ("\x22" ++ s ++ "\x22")
  | JsonVal.nat n => some (toString n)
  | JsonVal.bool b => some (if b then "true" else "false")
  | JsonVal.null => some "null"
  | JsonVal.unserializable => none

/-- Serialization of a whole `extra` dict: fails (returns `none`) when any
value is unserializable, mirroring `json.dumps(extra)` raising. -/
def jsonDumps (l : List (String × JsonVal)) : Option String :=
  (l.mapM (fun kv => (dumpVal kv.2).map (fun v => kv.1 ++ ":" ++ v))).map
    (fun parts => "\x7b" ++ String.intercalate "," parts ++ "\x7d")

/-- The `extra_data` column as `log_operation` computes it: `if extra:` skips a missing
or empty dict; otherwise `json.dumps` is attempted and a failure degrades to
`None` rather than propagating. -/
def serializeExtra (extra : Option (List (String × JsonVal))) : Option String :=
  match extra with
  | none => none
  | some l => if l = [] then none else jsonDumps l

/-- Embeds `log_operation`: builds one `OperationLog` row and adds it to the pending
session (embedded as appending to `DB.logs`); never fails, never commits. -/
def log_operation (db : DB) (user : Option User) (action : String)
    (target_type : Option String) (target_id : Option Nat)
    (message : Option String) (extra : Option (List (String × JsonVal))) : DB :=
  { db with logs := db.logs ++
      [{ user_id := user.map User.id, action := action,
         target_type := target_type, target_id := target_id,
         message := message, extra_data := serializeExtra extra }] }

/-! ### Status deriver (`get_contract_status`, contracts.py lines 55-98) -/

/-- Embeds `Task.query.filter_by(contract_id=cid).count() > 0`. -/
def has_tasks (db : DB) (cid : Nat) : Bool :=
  decide (0 < (db.tasks.filter (fun t => t.contract_id == cid)).length)

/-- Embeds `Payment.query.filter_by(contract_id=cid).count() > 0`. -/
def has_payments (db : DB) (cid : Nat) : Bool :=
  decide (0 < (db.payments.filter (fun p => p.contract_id == cid)).length)

/-- Embeds `Invoice.query.filter_by(contract_id=cid).count() > 0`. -/
def has_invoices (db : DB) (cid : Nat) : Bool :=
  decide (0 < (db.invoices.filter (fun i => i.contract_id == cid)).length)

/-- Embeds `Acceptance.query.filter_by(contract_id=cid).count() > 0`. -/
def has_acceptance (db : DB) (cid : Nat) : Bool :=
  decide (0 < (db.acceptances.filter (fun a => a.contract_id == cid)).length)

/-- Embeds the passed-acceptance count check, status equal to 通过. -/
def has_accepted (db : DB) (cid : Nat) : Bool :=
  decide (0 < ((db.acceptances.filter (fun a => a.contract_id == cid)).filter
    (fun a => a.status == "通过")).length)

/-- Embeds `Feedback.query.filter_by(contract_id=cid, is_resolved=False).count() > 0`. -/
def has_unresolved_feedback (db : DB) (cid : Nat) : Bool :=
  decide (0 < (db.feedbacks.filter
    (fun f => f.contract_id == cid && f.is_resolved == false)).length)

/-- The five ordered rules of `get_contract_status`, over the six booleans the
source computes; `none` marks the fall-through to the final defensive
`return "生产中", "blue"`, which the source comments call unreachable. -/
def statusRules (hasTasksB hasAcceptanceB hasAcceptedB hasPaymentsB
    hasUnresolvedB hasInvoicesB : Bool) : Option (String × String) :=
  if !hasTasksB && !hasAcceptanceB && !hasPaymentsB && !hasInvoicesB then
    some ("未启动", "grey")
  else if !hasAcceptedB then
    some ("生产中", "blue")
  else if hasAcceptedB && !hasPaymentsB then
    some ("已验收，待回款", "orange")
  else if hasAcceptedB && hasPaymentsB && hasUnresolvedB then
    some ("已回款，有未解决问题", "red")
  else if hasAcceptedB && hasPaymentsB && !hasUnresolvedB then
    some ("已完成", "green")
  else
    none

/-- Embeds `get_contract_status(contract)`: the five predicates are computed from the
live rows and fed through the ordered rules, with the defensive fallback. -/
def get_contract_status (db : DB) (contract : Contract) : String × String :=
  (statusRules (has_tasks db contract.id) (has_acceptance db contract.id)
    (has_accepted db contract.id) (has_payments db contract.id)
    (has_unresolved_feedback db contract.id)
    (has_invoices db contract.id)).getD ("生产中", "blue")

/-- The status algorithm exactly as the specification words it: five ordered
rules, first match wins, no separate fallback. -/
def specStatus (hasTasksB hasAcceptanceB hasAcceptedB hasPaymentsB
    hasUnresolvedB hasInvoicesB : Bool) : String × String :=
  if !hasTasksB && !hasAcceptanceB && !hasPaymentsB && !hasInvoicesB then
    ("未启动", "grey")
  else if !hasAcceptedB then
    ("生产中", "blue")
  else if !hasPaymentsB then
    ("已验收，待回款", "orange")
  else if hasUnresolvedB then
    ("已回款，有未解决问题", "red")
  else
    ("已完成", "green")

/-! ### Finance aggregator (`get_contract_finance_summary`, finance_service.py) -/

/-- Embeds `ZERO = Decimal(0.00)`. -/
def ZERO : ℚ := 0

/-- Embeds `contract.payments`: the relationship rows scoped to the contract. -/
def contract_payments (db : DB) (cid : Nat) : List Payment :=
  db.payments.filter (fun p => p.contract_id == cid)

/-- Embeds `contract.refunds`. -/
def contract_refunds (db : DB) (cid : Nat) : List Refund :=
  db.refunds.filter (fun r => r.contract_id == cid)

/-- Embeds `contract.invoices`. -/
def contract_invoices (db : DB) (cid : Nat) : List Invoice :=
  db.invoices.filter (fun i => i.contract_id == cid)

/-- The dictionary `get_contract_finance_summary` returns. -/
structure FinanceSummary where
  quote_amount : Option ℚ
  paid_total : ℚ
  refund_total : ℚ
  net_received : ℚ
  invoiced_total : ℚ
  receivable_remaining : Option ℚ
  invoice_remaining : Option ℚ
deriving Repr, DecidableEq

/-- Embeds `get_contract_finance_summary(contract, sales)`: resolves the sales row
(querying by `contract_id` when the argument is `None`), sums payment, refund
and invoice amounts with `(x.amount or ZERO)`, and computes the remainders
only when a quote amount is present. -/
def get_contract_finance_summary (db : DB) (contract : Contract)
    (salesArg : Option SalesInfo) : FinanceSummary :=
  let sales : Option SalesInfo :=
    match salesArg with
    | some s => some s
    | none => (db.salesinfos.filter (fun s => s.contract_id == contract.id)).head?
  let quote_amount : Option ℚ :=
    match sales with
    | some s => s.quote_amount
    | none => none
  let paid_total : ℚ :=
    ((contract_payments db contract.id).map (fun p => p.amount.getD ZERO)).sum
  let refund_total : ℚ :=
    ((contract_refunds db contract.id).map (fun r => r.amount.getD ZERO)).sum
  let net_received : ℚ := paid_total - refund_total
  let invoiced_total : ℚ :=
    ((contract_invoices db contract.id).map (fun inv => inv.amount.getD ZERO)).sum
  let receivable_remaining : Option ℚ :=
    match quote_amount with
    | some q => some (q - net_received)
    | none => none
  let invoice_remaining : Option ℚ :=
    match quote_amount with
    | some q => some (q - invoiced_total)
    | none => none
  { quote_amount := quote_amount, paid_total := paid_total,
    refund_total := refund_total, net_received := net_received,
    invoiced_total := invoiced_total,
    receivable_remaining := receivable_remaining,
    invoice_remaining := invoice_remaining }

/-- The specification's summation: `Σ amount`, an absent amount field counting
as zero, written as a running fold over the nullable amounts. -/
def specSum (amounts : List (Option ℚ)) : ℚ :=
  amounts.foldl (fun acc a => acc + a.getD 0) 0

/-- The sales row `get_contract_finance_summary` works from: the caller's
argument when supplied, otherwise the first row found by `contract_id`. -/
def resolvedSales (db : DB) (contract : Contract)
    (salesArg : Option SalesInfo) : Option SalesInfo :=
  match salesArg with
  | some s => some s
  | none => (db.salesinfos.filter (fun s => s.contract_id == contract.id)).head?

/-! ### File access policy (`file_service.py`) -/

/-- Python's `str.lower()` restricted to what `Char.toLower` covers. -/
def pyLower (s : String) : String :=
  String.mk (s.data.map Char.toLower)

/-- Python's `str.strip()`: leading and trailing whitespace removed. -/
def pyStrip (s : String) : String :=
  String.mk (((s.data.dropWhile Char.isWhitespace).reverse.dropWhile
    Char.isWhitespace).reverse)

/-- Embeds `_get_role(user)`: the role is `(user.role or "").strip().lower()`
when the user and their role are truthy, the empty string otherwise. -/
def get_role (user : Option User) : String :=
  match user with
  | some u =>
    match u.role with
    | some r => if r = "" then "" else pyLower (pyStrip r)
    | none => ""
  | none => ""

/-- The dictionary both policy evaluators return. -/
structure FileDecision where
  allowed : Bool
  flash_message : Option String
  log_action : String
  log_message : String
  log_extra : List (String × JsonVal)
deriving Repr, DecidableEq

/-- The value `user.role if user and user.role else None`, as a JSON value. -/
def jsonOfRole : Option String → JsonVal
  | some r => if r = "" then JsonVal.null else JsonVal.str r
  | none => JsonVal.null

/-- A nullable integer column as a JSON value. -/
def jsonOfOptNat : Option Nat → JsonVal
  | some n => JsonVal.nat n
  | none => JsonVal.null

/-- Embeds `evaluate_file_download(user, contract, pf)`: role-based first-match
download policy, with the audit payload each branch prepares. -/
def evaluate_file_download (user : Option User) (contract : Contract)
    (pf : ProjectFile) : FileDecision :=
  let role := get_role user
  let dec0 : FileDecision :=
    { allowed := true, flash_message := none,
      log_action := "file.download",
      log_message := "下载文件：" ++ pf.original_filename,
      log_extra := [("contract_id", JsonVal.nat contract.id),
                    ("file_type", JsonVal.str pf.file_type),
                    ("version", JsonVal.nat pf.version),
                    ("is_public", JsonVal.bool pf.is_public)] }
  if role = "admin" ∨ role = "boss" ∨ role = "software_engineer" then
    dec0
  else if role = "customer" then
    if !(pf.is_public && (pf.file_type == "contract" || pf.file_type == "tech")) then
      { allowed := false,
        flash_message := some "你没有权限下载此文件",
        log_action := "file.download_denied",
        log_message := "客户尝试下载未公开文件",
        log_extra := [("contract_id", JsonVal.nat contract.id),
                      ("file_type", JsonVal.str pf.file_type),
                      ("is_public", JsonVal.bool pf.is_public)] }
    else dec0
  else
    match pf.owner_role, user with
    | some orr, some u =>
      if orr != "" && u.role != some orr then
        { allowed := false,
          flash_message := some "你只能下载自己部门上传的文件",
          log_action := "file.download_denied",
          log_message := "员工尝试下载非本部门文件",
          log_extra := [("contract_id", JsonVal.nat contract.id),
                        ("file_type", JsonVal.str pf.file_type),
                        ("owner_role", JsonVal.str orr),
                        ("user_role", jsonOfRole u.role)] }
      else dec0
    | _, _ => dec0

/-- Embeds `evaluate_file_delete(user, contract, pf)`: soft-delete policy — denied
unless the user is the uploader or an admin/boss. -/
def evaluate_file_delete (user : Option User) (contract : Contract)
    (pf : ProjectFile) : FileDecision :=
  let role := get_role user
  let dec0 : FileDecision :=
    { allowed := true, flash_message := none,
      log_action := "file.delete_soft",
      log_message := "软删除文件：" ++ pf.original_filename,
      log_extra := [("contract_id", JsonVal.nat contract.id),
                    ("stored_filename", JsonVal.str pf.stored_filename),
                    ("file_type", JsonVal.str pf.file_type)] }
  let denied (u : Option User) : FileDecision :=
    { allowed := false,
      flash_message := some "你没有权限删除此文件",
      log_action := "file.delete_denied",
      log_message := "无权限删除文件",
      log_extra := [("contract_id", JsonVal.nat contract.id),
                    ("stored_filename", JsonVal.str pf.stored_filename),
                    ("file_type", JsonVal.str pf.file_type),
                    ("uploader_id", jsonOfOptNat pf.uploader_id),
                    ("user_id", jsonOfOptNat (u.map User.id)),
                    ("user_role", jsonOfRole (u.bind User.role))] }
  match user with
  | none => denied none
  | some u =>
    if some u.id != pf.uploader_id && !(role == "admin" || role == "boss") then
      denied (some u)
    else dec0

/-- Download permission as the specification words it: three role classes,
first match wins. -/
def spec_download_allowed (u : User) (pf : ProjectFile) : Bool :=
  let role := get_role (some u)
  if role = "admin" ∨ role = "boss" ∨ role = "software_engineer" then
    true
  else if role = "customer" then
    pf.is_public && (pf.file_type == "contract" || pf.file_type == "tech")
  else
    match pf.owner_role with
    | none => true
    | some orr => orr == "" || u.role == some orr

/-- Delete permission as the specification words it: the uploader, or an
admin or boss; nobody when there is no user. -/
def spec_delete_allowed (user : Option User) (pf : ProjectFile) : Bool :=
  match user with
  | none => false
  | some u =>
    (some u.id == pf.uploader_id) ||
      (get_role (some u) == "admin") || (get_role (some u) == "boss")

/-! ### Record-deletion route handlers (contracts.py)

Each handler runs in one request-scoped transaction.  `Except.error` embeds an
exception escaping the handler before `db.session.commit()`: Flask rolls the
transaction back, so the store keeps its pre-request state — an `error` result
therefore means no row was removed and no log entry was persisted. -/

/-- An exception escaping a route handler: `abort(404)` from `get_or_404` /
`first_or_404`, or Python's `NameError` for an unbound name. -/
inductive FsznError where
  | notFound
  | nameError
deriving Repr, DecidableEq

/-- Embeds `Contract.query.get_or_404(contract_id)`. -/
def findContract (db : DB) (cid : Nat) : Option Contract :=
  db.contracts.find? (fun c => c.id == cid)

/-- The `delete_task` route (contracts.py lines 865-873): loads the contract,
locates the task by `(id, contract_id)` with `first_or_404`, deletes it and
commits.  It calls `log_operation` nowhere. -/
def delete_task_route (db : DB) (contract_id task_id : Nat) :
    Except FsznError DB :=
  match findContract db contract_id with
  | none => Except.error FsznError.notFound
  | some contract =>
    match db.tasks.find? (fun t => t.id == task_id && t.contract_id == contract.id) with
    | none => Except.error FsznError.notFound
    | some _ =>
      let remaining := db.tasks.eraseP (fun t => t.id == task_id && t.contract_id == contract.id)
      Except.ok { db with tasks := remaining }

/-- The `delete_leader` route (contracts.py lines 755-770): same shape as
`delete_task`; it also calls `log_operation` nowhere. -/
def delete_leader_route (db : DB) (contract_id leader_id : Nat) :
    Except FsznError DB :=
  match findContract db contract_id with
  | none => Except.error FsznError.notFound
  | some contract =>
    match db.leaders.find? (fun l => l.id == leader_id && l.contract_id == contract.id) with
    | none => Except.error FsznError.notFound
    | some _ =>
      let remaining := db.leaders.eraseP (fun l => l.id == leader_id && l.contract_id == contract.id)
      Except.ok { db with leaders := remaining }

/-- The `delete_procurement` route (contracts.py lines 966-985): after the two
lookups it calls `log_operation(user=user, ...)`, but no `user` is bound in
the function body (and none exists at module level), so evaluating the
argument raises `NameError` before the log row is built and before
`db.session.delete(item)` runs. -/
def delete_procurement_route (db : DB) (contract_id item_id : Nat) :
    Except FsznError DB :=
  match findContract db contract_id with
  | none => Except.error FsznError.notFound
  | some contract =>
    match db.procurements.find? (fun i => i.id == item_id && i.contract_id == contract.id) with
    | none => Except.error FsznError.notFound
    | some _ => Except.error FsznError.nameError

/-- The `delete_sales` route (contracts.py lines 1222-1249): when the contract
has no `SalesInfo` it flashes and redirects (a normal return); otherwise it
reaches the `log_operation(user=user, ...)` call whose unbound `user` raises
`NameError` before the deletion. -/
def delete_sales_route (db : DB) (contract_id : Nat) : Except FsznError DB :=
  match findContract db contract_id with
  | none => Except.error FsznError.notFound
  | some contract =>
    match (db.salesinfos.filter (fun s => s.contract_id == contract.id)).head? with
    | none => Except.ok db
    | some _ => Except.error FsznError.nameError

/-- The amount component of the delete-payment log message f-string. -/
def pyAmountRepr : Option ℚ → String
  | some q => toString q
  | none => "None"

/-- The `delete_payment` route (contracts.py lines 1414-1436): loads the
session user and the contract, locates the payment by `(id, contract_id)` with
`first_or_404`, writes the audit row, deletes the payment and commits. -/
def delete_payment_route (db : DB) (session_user_id : Option Nat)
    (contract_id pay_id : Nat) : Except FsznError DB :=
  let user : Option User :=
    match session_user_id with
    | some uid => db.users.find? (fun u => u.id == uid)
    | none => none
  match findContract db contract_id with
  | none => Except.error FsznError.notFound
  | some contract =>
    match db.payments.find? (fun p => p.id == pay_id && p.contract_id == contract.id) with
    | none => Except.error FsznError.notFound
    | some p =>
      let db1 := log_operation db user "payment.delete" (some "Payment")
        (some p.id) (some ("删除付款记录：金额=" ++ pyAmountRepr p.amount))
        (some [("contract_id", JsonVal.nat contract.id),
               ("date", match p.pay_date with
                        | some d => JsonVal.str d
                        | none => JsonVal.null)])
      let remaining := db1.payments.eraseP (fun q => q.id == pay_id && q.contract_id == contract.id)
      Except.ok { db1 with payments := remaining }

/-- A store with every table empty. -/
def emptyDB : DB :=
  { users := [], contracts := [], tasks := [], procurements := [],
    acceptances := [], payments := [], invoices := [], refunds := [],
    feedbacks := [], salesinfos := [], leaders := [], logs := [] }

/-- A store holding one contract with one task and one leader row. -/
def auditGapDB : DB :=
  { emptyDB with
    contracts := [{ id := 1, project_code := "P001", contract_number := none }],
    tasks := [{ id := 7, contract_id := 1, title := "装配", status := "进行中" }],
    leaders := [{ id := 3, contract_id := 1 }] }

/-- A store holding one contract with one procurement item and a sales row. -/
def unboundUserDB : DB :=
  { emptyDB with
    contracts := [{ id := 1, project_code := "P002", contract_number := none }],
    procurements := [{ id := 4, contract_id := 1, item_name := "钢板" }],
    salesinfos := [{ id := 2, contract_id := 1, quote_amount := some 100 }] }

/-- A store holding one contract and no sales row. -/
def noSalesDB : DB :=
  { emptyDB with
    contracts := [{ id := 1, project_code := "P003", contract_number := none }] }

/-- A store holding one contract and one payment of a different contract. -/
def missingPaymentDB : DB :=
  { emptyDB with
    contracts := [{ id := 1, project_code := "P004", contract_number := none }],
    payments := [{ id := 5, contract_id := 2, amount := some 100, pay_date := none }] }

/-- Helper: on every combination of the six flags, the source's rule chain
with its fallback agrees with the specification's five-rule chain. -/
theorem statusRules_getD_eq_specStatus : ∀ t a ac p u i : Bool,
    (statusRules t a ac p u i).getD ("生产中", "blue") = specStatus t a ac p u i := by
  decide

/-- C1: `get_contract_status` returns, for every database state and contract,
exactly the label and severity tier that the specification's five-step ordered
algorithm (first match wins over the record-derived predicates) prescribes. -/
theorem get_contract_status_follows_spec (db : DB) (contract : Contract) :
    get_contract_status db contract =
      specStatus (has_tasks db contract.id) (has_acceptance db contract.id)
        (has_accepted db contract.id) (has_payments db contract.id)
        (has_unresolved_feedback db contract.id) (has_invoices db contract.id) :=
  statusRules_getD_eq_specStatus _ _ _ _ _ _

/-- C3: the defensive fallback branch of `get_contract_status` is unreachable:
for every combination of the boolean predicates, one of the five ordered rules
already produces a result (`statusRules` never returns `none`). -/
theorem statusRules_fallback_unreachable : ∀ t a ac p u i : Bool,
    (statusRules t a ac p u i).isSome = true := by
  decide

/-- Helper: a fold accumulating nullable amounts equals the sum of the mapped
defaults, shifted by its initial value. -/
theorem foldl_getD_eq_add_sum (l : List (Option ℚ)) : ∀ acc : ℚ,
    l.foldl (fun acc a => acc + a.getD 0) acc = acc + (l.map (fun a => a.getD 0)).sum := by
  induction l with
  | nil => intro acc; simp
  | cons hd tl ih =>
    intro acc
    simp only [List.foldl_cons, List.map_cons, List.sum_cons, ih, add_assoc]

/-- Helper: the specification's fold is the code's map-and-sum. -/
theorem specSum_eq_sum_map (l : List (Option ℚ)) :
    specSum l = (l.map (fun a => a.getD 0)).sum := by
  simpa using foldl_getD_eq_add_sum l 0

/-- C2: `get_contract_finance_summary` computes exactly the specification's
aggregates: each total is the exact-decimal sum of the contract's amounts with
absent fields as zero, `net_received = paid_total − refund_total`, the quote
amount is the resolved sales row's nullable amount, and each remainder is
`quote − …` when the quote is present and `none` (never `0`) when absent. -/
theorem finance_summary_matches_spec (db : DB) (contract : Contract)
    (salesArg : Option SalesInfo) :
    (get_contract_finance_summary db contract salesArg).paid_total =
      specSum ((contract_payments db contract.id).map Payment.amount) ∧
    (get_contract_finance_summary db contract salesArg).refund_total =
      specSum ((contract_refunds db contract.id).map Refund.amount) ∧
    (get_contract_finance_summary db contract salesArg).net_received =
      (get_contract_finance_summary db contract salesArg).paid_total -
        (get_contract_finance_summary db contract salesArg).refund_total ∧
    (get_contract_finance_summary db contract salesArg).invoiced_total =
      specSum ((contract_invoices db contract.id).map Invoice.amount) ∧
    (get_contract_finance_summary db contract salesArg).quote_amount =
      (resolvedSales db contract salesArg).bind SalesInfo.quote_amount ∧
    (get_contract_finance_summary db contract salesArg).receivable_remaining =
      (get_contract_finance_summary db contract salesArg).quote_amount.map
        (fun q => q - (get_contract_finance_summary db contract salesArg).net_received) ∧
    (get_contract_finance_summary db contract salesArg).invoice_remaining =
      (get_contract_finance_summary db contract salesArg).quote_amount.map
        (fun q => q - (get_contract_finance_summary db contract salesArg).invoiced_total) := by
  cases salesArg with
  | some s =>
    cases hq : s.quote_amount <;>
      refine ⟨?_, ?_, ?_, ?_, ?_, ?_, ?_⟩ <;>
        simp [get_contract_finance_summary, resolvedSales, specSum_eq_sum_map,
          List.map_map, ZERO, hq, Function.comp_def]
  | none =>
    cases hs : (db.salesinfos.filter (fun s => s.contract_id == contract.id)).head? with
    | none =>
      refine ⟨?_, ?_, ?_, ?_, ?_, ?_, ?_⟩ <;>
        simp [get_contract_finance_summary, resolvedSales, specSum_eq_sum_map,
          List.map_map, ZERO, hs, Function.comp_def]
    | some s =>
      cases hq : s.quote_amount <;>
        refine ⟨?_, ?_, ?_, ?_, ?_, ?_, ?_⟩ <;>
          simp [get_contract_finance_summary, resolvedSales, specSum_eq_sum_map,
            List.map_map, ZERO, hs, hq, Function.comp_def]

/-- C5: for every logged-in user, `evaluate_file_download` allows exactly what
the specification's role-based first-match rules allow (admin/boss/software
engineer always; customer only public contract/tech files; other roles only
files whose owner role is unset or their own), and records the audit action
`file.download` when allowed and `file.download_denied` when denied. -/
theorem evaluate_file_download_matches_spec (u : User) (contract : Contract)
    (pf : ProjectFile) :
    (evaluate_file_download (some u) contract pf).allowed =
      spec_download_allowed u pf ∧
    (evaluate_file_download (some u) contract pf).log_action =
      (if spec_download_allowed u pf then "file.download"
       else "file.download_denied") := by
  obtain ⟨uid, urole⟩ := u
  obtain ⟨fid, fcid, fon, fsn, ftype, fver, fpub, fown, fupl⟩ := pf
  refine ⟨?_, ?_⟩ <;>
  · simp only [evaluate_file_download, spec_download_allowed]
    by_cases h1 : get_role (some ⟨uid, urole⟩) = "admin" ∨
        get_role (some ⟨uid, urole⟩) = "boss" ∨
        get_role (some ⟨uid, urole⟩) = "software_engineer"
    · simp [h1]
    · by_cases h2 : get_role (some ⟨uid, urole⟩) = "customer"
      · cases fpub <;> by_cases hc : ftype = "contract" <;>
          by_cases ht : ftype = "tech" <;> simp [h1, h2, hc, ht]
      · cases fown with
        | none => simp [h1, h2]
        | some orr =>
          by_cases he : orr = "" <;> by_cases hr : urole = some orr <;>
            simp_all

/-- Helper: a string starting with a nonempty literal is nonempty. -/
theorem append_ne_empty_left (s t : String) (h : s.data ≠ []) : s ++ t ≠ "" := by
  intro hc
  apply h
  have hd := congrArg String.data hc
  simp only [String.data_append] at hd
  exact (List.append_eq_nil.mp (by simpa using hd)).1

/-- C6: `evaluate_file_delete` allows exactly the uploader and the admin/boss
roles, uses the audit action `file.delete_soft` when allowed and
`file.delete_denied` when denied, and in every case returns a complete audit
record: a nonempty action, a nonempty message and a nonempty extra payload. -/
theorem evaluate_file_delete_matches_spec (user : Option User)
    (contract : Contract) (pf : ProjectFile) :
    (evaluate_file_delete user contract pf).allowed =
      spec_delete_allowed user pf ∧
    (evaluate_file_delete user contract pf).log_action =
      (if spec_delete_allowed user pf then "file.delete_soft"
       else "file.delete_denied") ∧
    (evaluate_file_delete user contract pf).log_action ≠ "" ∧
    (evaluate_file_delete user contract pf).log_message ≠ "" ∧
    (evaluate_file_delete user contract pf).log_extra ≠ [] := by
  cases user with
  | none =>
    refine ⟨?_, ?_, ?_, ?_, ?_⟩ <;> simp [evaluate_file_delete, spec_delete_allowed]
  | some u =>
    obtain ⟨uid, urole⟩ := u
    by_cases hi : some uid = pf.uploader_id <;>
      by_cases ha : get_role (some ⟨uid, urole⟩) = "admin" <;>
      by_cases hb : get_role (some ⟨uid, urole⟩) = "boss" <;>
      refine ⟨?_, ?_, ?_, ?_, ?_⟩ <;>
      (try simp [evaluate_file_delete, spec_delete_allowed, hi, ha, hb]) <;>
      (try exact append_ne_empty_left _ _ (by decide))

/-- C10: a download request with no logged-in user derives the empty role,
falls into the internal-employee branch, skips the owner-role restriction
(which requires a user), and is therefore allowed for every file with the
plain `file.download` audit action. -/
theorem evaluate_file_download_none_user_allowed (contract : Contract)
    (pf : ProjectFile) :
    get_role none = "" ∧
    (evaluate_file_download none contract pf).allowed = true ∧
    (evaluate_file_download none contract pf).log_action = "file.download" := by
  refine ⟨rfl, ?_, ?_⟩ <;>
  · simp only [evaluate_file_download, get_role]
    rw [if_neg (by decide), if_neg (by decide)]
    cases pf.owner_role <;> rfl

/-- C7: `log_operation` is total and always appends exactly one row: the
existing rows are untouched, the new row carries the requested action, and
when serializing the extra payload fails the row is still written with
`extra_data` empty — logging never blocks the business operation. -/
theorem log_operation_always_appends (db : DB) (user : Option User)
    (action : String) (target_type : Option String) (target_id : Option Nat)
    (message : Option String) (extra : Option (List (String × JsonVal))) :
    (log_operation db user action target_type target_id message extra).logs.length =
      db.logs.length + 1 ∧
    (log_operation db user action target_type target_id message extra).logs.take
      db.logs.length = db.logs ∧
    ((log_operation db user action target_type target_id message extra).logs.getLast?).map
      OperationLog.action = some action ∧
    (∀ l, jsonDumps l = none →
      ((log_operation db user action target_type target_id message (some l)).logs.getLast?).map
        OperationLog.extra_data = some none) := by
  refine ⟨?_, ?_, ?_, ?_⟩
  · simp [log_operation]
  · simp [log_operation, List.take_left]
  · simp [log_operation]
  · intro l hl
    by_cases hnil : l = []
    · simp [log_operation, serializeExtra, hnil]
    · simp [log_operation, serializeExtra, hnil, hl]

/-- C4: the specification requires every mutating command to write an
`OperationLog` row in the same transaction, but the task-delete and
department-leader-delete routes commit their deletion with no log call: on a
store with one task and one leader row, both deletions succeed and the log
stays empty. -/
theorem delete_task_leader_commit_without_log :
    auditGapDB.tasks ≠ [] ∧ auditGapDB.leaders ≠ [] ∧
    (delete_task_route auditGapDB 1 7).map DB.tasks = Except.ok [] ∧
    (delete_task_route auditGapDB 1 7).map DB.logs = Except.ok [] ∧
    (delete_leader_route auditGapDB 1 3).map DB.leaders = Except.ok [] ∧
    (delete_leader_route auditGapDB 1 3).map DB.logs = Except.ok [] := by
  refine ⟨by decide, by decide, rfl, rfl, rfl, rfl⟩

/-- C8: deleting a payment through the route with an `(id, contract_id)` pair
matching no row fails with the 404 error before any mutation — the handler
returns `Except.error`, so nothing is committed: no row removed, no audit
entry persisted. -/
theorem delete_payment_missing_pair_not_found (db : DB) (sess : Option Nat)
    (cid pid : Nat)
    (h : ∀ p ∈ db.payments, ¬(p.id = pid ∧ p.contract_id = cid)) :
    delete_payment_route db sess cid pid = Except.error FsznError.notFound ∧
    ∀ db', delete_payment_route db sess cid pid ≠ Except.ok db' := by
  have hmain : delete_payment_route db sess cid pid = Except.error FsznError.notFound := by
    unfold delete_payment_route
    cases hfc : findContract db cid with
    | none => rfl
    | some c =>
      have hcid : c.id = cid := by
        have := List.find?_some hfc
        simpa using this
      have hfind : db.payments.find?
          (fun p => p.id == pid && p.contract_id == c.id) = none := by
        rw [List.find?_eq_none]
        intro p hp
        have := h p hp
        simp [hcid]
        intro h1 h2
        exact this ⟨h1, h2⟩
      simp [hfind]
  exact ⟨hmain, fun db' hok => by rw [hmain] at hok; exact Except.noConfusion hok⟩

/-- C8 witness: on a concrete store whose only payment belongs to another
contract, the delete of pair `(99, 1)` returns the 404 error. -/
theorem delete_payment_missing_pair_not_found_witness :
    delete_payment_route missingPaymentDB none 1 99 =
      Except.error FsznError.notFound :=
  (delete_payment_missing_pair_not_found missingPaymentDB none 1 99 (by decide)).1

/-- C9 counterexample: the claim says every invocation of the sales-info
delete operation raises an unhandled error, but on a contract with no sales
row the handler returns normally (flash + redirect), deleting nothing. -/
theorem delete_sales_no_record_returns_ok :
    delete_sales_route noSalesDB 1 = Except.ok noSalesDB := by
  rfl

/-- Helper: when a contract with the requested id exists, `get_or_404`
resolves it, and the row it finds carries that id. -/
theorem findContract_of_exists (db : DB) (cid : Nat)
    (hc : ∃ c ∈ db.contracts, c.id = cid) :
    ∃ c0, findContract db cid = some c0 ∧ c0.id = cid := by
  obtain ⟨c, hcmem, hcid⟩ := hc
  have h1 : (db.contracts.find? (fun c => c.id == cid)).isSome := by
    rw [List.find?_isSome]
    exact ⟨c, hcmem, by simp [hcid]⟩
  obtain ⟨c0, hc0⟩ := Option.isSome_iff_exists.mp h1
  refine ⟨c0, hc0, ?_⟩
  have := List.find?_some hc0
  simpa using this

/-- C9 (amended): the procurement-item delete never succeeds: whenever the
contract and the target item exist, the unbound name `user` raises `NameError`
before the deletion, and otherwise a lookup 404s first.  The sales-info delete
raises the same unbound-name error whenever the contract has a sales row; on a
contract with no sales row it returns normally with the store unchanged, and
in general any normal return of it leaves the store unchanged.  Hence neither
handler ever removes its target record or commits a log entry. -/
theorem delete_procurement_sales_raise_nameError (db : DB) (cid iid : Nat) :
    (∀ db', delete_procurement_route db cid iid ≠ Except.ok db') ∧
    ((∃ c ∈ db.contracts, c.id = cid) →
      (∃ it ∈ db.procurements, it.id = iid ∧ it.contract_id = cid) →
      delete_procurement_route db cid iid = Except.error FsznError.nameError) ∧
    ((∃ c ∈ db.contracts, c.id = cid) →
      (∃ s ∈ db.salesinfos, s.contract_id = cid) →
      delete_sales_route db cid = Except.error FsznError.nameError) ∧
    ((∃ c ∈ db.contracts, c.id = cid) →
      (∀ s ∈ db.salesinfos, s.contract_id ≠ cid) →
      delete_sales_route db cid = Except.ok db) ∧
    (∀ db', delete_sales_route db cid = Except.ok db' → db' = db) := by
  refine ⟨?_, ?_, ?_, ?_, ?_⟩
  · intro db' hok
    cases hfc : findContract db cid with
    | none => simp [delete_procurement_route, hfc] at hok
    | some c =>
      cases hit : db.procurements.find? (fun i => i.id == iid && i.contract_id == c.id) with
      | none => simp [delete_procurement_route, hfc, hit] at hok
      | some it => simp [delete_procurement_route, hfc, hit] at hok
  · intro hc hp
    obtain ⟨c0, hc0, hc0id⟩ := findContract_of_exists db cid hc
    obtain ⟨it, hitmem, hit1, hit2⟩ := hp
    have h2 : (db.procurements.find?
        (fun i => i.id == iid && i.contract_id == c0.id)).isSome := by
      rw [List.find?_isSome]
      exact ⟨it, hitmem, by simp [hit1, hit2, hc0id]⟩
    obtain ⟨it0, hit0⟩ := Option.isSome_iff_exists.mp h2
    simp [delete_procurement_route, hc0, hit0]
  · intro hc hs
    obtain ⟨c0, hc0, hc0id⟩ := findContract_of_exists db cid hc
    obtain ⟨s, hsmem, hscid⟩ := hs
    have hmem : s ∈ db.salesinfos.filter (fun s => s.contract_id == c0.id) :=
      List.mem_filter.mpr ⟨hsmem, by simp [hscid, hc0id]⟩
    cases hfil : db.salesinfos.filter (fun s => s.contract_id == c0.id) with
    | nil => exact absurd hfil (List.ne_nil_of_mem hmem)
    | cons a as => simp [delete_sales_route, hc0, hfil]
  · intro hc hns
    obtain ⟨c0, hc0, hc0id⟩ := findContract_of_exists db cid hc
    have hfil : db.salesinfos.filter (fun s => s.contract_id == c0.id) = [] := by
      rw [List.filter_eq_nil_iff]
      intro s hsmem
      simp only [hc0id, beq_iff_eq]
      exact hns s hsmem
    simp [delete_sales_route, hc0, hfil]
  · intro db' hok
    cases hfc : findContract db cid with
    | none => simp [delete_sales_route, hfc] at hok
    | some c =>
      cases hfil : (db.salesinfos.filter (fun s => s.contract_id == c.id)).head? with
      | none =>
        simp [delete_sales_route, hfc, hfil] at hok
        exact hok.symm
      | some s => simp [delete_sales_route, hfc, hfil] at hok

/-- C9 witness: on a concrete store holding the contract, a procurement item
and a sales row, the amended theorem yields both unbound-name failures. -/
theorem delete_procurement_sales_raise_nameError_witness :
    delete_procurement_route unboundUserDB 1 4 = Except.error FsznError.nameError ∧
    delete_sales_route unboundUserDB 1 = Except.error FsznError.nameError :=
  ⟨(delete_procurement_sales_raise_nameError unboundUserDB 1 4).2.1
      (by decide) (by decide),
   (delete_procurement_sales_raise_nameError unboundUserDB 1 4).2.2.1
      (by decide) (by decide)⟩

end Fszn
